import Mathlib

/-!
Verification of the mcp-ui server SDK (`sdks/typescript/server/src/index.ts`).

The development shallowly embeds the two parts of the source the claims are
about:

* `sendExperimentalRequest` (source lines 233-303): a guest-side JSON-RPC
  call over `window.postMessage`.  The imperative, callback-driven code is
  embedded as
  - a per-call state machine (`CallState`, `handler`, `timeoutFire`,
    `onAbort`, `step`, `runEvents`) modelling the message listener, the
    abort listener, the timeout timer and the promise settlement, and
  - an action trace (`sendExperimentalRequest` below) recording, in source
    order, the observable effects of one invocation: id allocation,
    listener/timer registration, the single `postMessage`, or an immediate
    rejection.
  JavaScript is single threaded, so the interleaving of the three callbacks
  is an arbitrary sequence of `Event`s processed one at a time; a listener
  removed by `cleanup` (and a timer cleared by `clearTimeout`) no longer
  fires, which the model expresses by guarding each callback on its
  registration flag.

* `createUIResource` (source lines 35-111): pure construction of a UI
  resource with input validation.  Untyped JavaScript runtime values
  (`event.data`, the `typeof` checks) are embedded as `JsonValue`.
-/

namespace McpUi

/-- A JavaScript/JSON runtime value, for the untyped data that crosses the
`postMessage` boundary and for the runtime `typeof` checks of
`createUIResource`. -/
inductive JsonValue where
  | null
  | bool (b : Bool)
  | num (n : Int)
  | str (s : String)
  | arr (elems : List JsonValue)
  | obj (fields : List (String × JsonValue))

/-- JavaScript truthiness of a value: `null`, `false`, `0` and the empty
string are falsy; arrays and objects are always truthy.  Used because the
source tests `if (data.error)` (line 265), a truthiness test, not a
key-presence test. -/
def JsonValue.truthy : JsonValue → Bool
  | .null => false
  | .bool b => b
  | .num n => n != 0
  | .str s => s != ""
  | .arr _ => true
  | .obj _ => true

/-- Whether a runtime value is a string (the `typeof x === "string"` check of
`createUIResource`, source lines 44 and 66). -/
def JsonValue.isString : JsonValue → Bool
  | .str _ => true
  | _ => false

/-- The fields of an incoming `event.data` that the response handler (source
lines 258-271) reads.  `none` models an absent key (JavaScript
`undefined`); a message whose data is not an object at all reads every
field as `undefined`, i.e. all fields `none`. -/
structure MessageData where
  jsonrpc : Option String
  id : Option JsonValue
  error : Option JsonValue
  result : Option JsonValue

/-- The sender (`event.source`) of an incoming message: the parent window the
request was posted to, or any other window. -/
inductive Source where
  | parent
  | other (name : String)
deriving DecidableEq, Repr

/-- Why a call's promise was rejected: the JSON-RPC `error` value forwarded by
`reject(data.error)` (source line 266), or a `new Error(msg)` built by the
timeout / abort / top-level paths. -/
inductive RejectReason where
  | jsonRpcError (e : JsonValue)
  | errorMessage (msg : String)

/-- A settlement of the call's promise. -/
inductive Settlement where
  | resolved (v : Option JsonValue)
  | rejected (r : RejectReason)

/-- The per-call bookkeeping of one `sendExperimentalRequest` invocation:
whether the `message` listener, the `abort` listener and the timeout timer
are currently registered, and whether (and how) the promise has settled. -/
structure CallState where
  listenerOn : Bool
  abortOn : Bool
  timerOn : Bool
  settled : Option Settlement

/-- The `cleanup` closure (source lines 250-256): removes the `message`
listener, clears the timeout timer and removes the `abort` listener. -/
def cleanup (st : CallState) : CallState :=
  { st with listenerOn := false, timerOn := false, abortOn := false }

/-- Settling the promise.  A JavaScript promise ignores `resolve`/`reject`
once settled, hence the guard; the theorems show the guard is in fact never
hit twice on any reachable run. -/
def settle (st : CallState) (s : Settlement) : CallState :=
  if st.settled.isSome then st else { st with settled := some s }

/-- Truthiness of `data.error` (source line 265): an absent key is
`undefined`, which is falsy. -/
def dataErrTruthy (data : MessageData) : Bool :=
  match data.error with
  | some e => e.truthy
  | none => false

/-- Strict equality `data?.id === id` (source line 263) where `id` is the
number allocated for the call: it holds exactly when the incoming value is
that same number. -/
def idMatches (callId : Nat) : Option JsonValue → Bool
  | some (.num n) => n == (callId : Int)
  | _ => false

/-- The `message` listener `handler` (source lines 258-271), for the call with
id `callId`.  A removed listener no longer fires, modelled by the
`listenerOn` guard.  Messages whose `event.source` is not `window.parent`
are ignored (line 260); otherwise the data must satisfy
`data?.jsonrpc === '2.0' && data?.id === id` (line 263); then `cleanup()`
runs and the promise is rejected with `data.error` when that value is
truthy, else resolved with `data.result`. -/
def handler (callId : Nat) (st : CallState) (source : Source) (data : MessageData) :
    CallState :=
  if st.listenerOn = false then st
  else if source ≠ Source.parent then st
  else if data.jsonrpc = some "2.0" ∧ idMatches callId data.id = true then
    match data.error with
    | some e =>
      if e.truthy then settle (cleanup st) (.rejected (.jsonRpcError e))
      else settle (cleanup st) (.resolved data.result)
    | none => settle (cleanup st) (.resolved data.result)
  else st

/-- The error message built at source line 289. -/
def timeoutMessage (method : String) (timeoutMs : Nat) : String :=
  s!"Experimental request \"{method}\" timed out after {timeoutMs}ms"

/-- The error message built at source lines 275 and 279. -/
def abortMessage (method : String) : String :=
  s!"Experimental request \"{method}\" was aborted"

/-- The message built at source line 240. -/
def NOT_IN_IFRAME_MESSAGE : String :=
  "sendExperimentalRequest must be called from within an iframe"

/-- The timeout callback (source lines 287-290).  A cleared timer no longer
fires, modelled by the `timerOn` guard; when it fires it runs `cleanup()`
and rejects with the timeout error naming the method and the duration. -/
def timeoutFire (method : String) (timeoutMs : Nat) (st : CallState) : CallState :=
  if st.timerOn then
    settle (cleanup st) (.rejected (.errorMessage (timeoutMessage method timeoutMs)))
  else st

/-- The `onAbort` listener (source lines 273-276).  A removed listener no
longer fires, modelled by the `abortOn` guard; when it fires it runs
`cleanup()` and rejects with the abort error naming the method. -/
def onAbort (method : String) (st : CallState) : CallState :=
  if st.abortOn then
    settle (cleanup st) (.rejected (.errorMessage (abortMessage method)))
  else st

/-- One asynchronous occurrence delivered to the call's callbacks: an incoming
`message` event, the timeout timer firing, or the abort signal firing. -/
inductive Event where
  | message (source : Source) (data : MessageData)
  | timerFire
  | abortFire

/-- Dispatch one event to the call's callbacks (single-threaded, so events are
processed one at a time). -/
def step (callId : Nat) (method : String) (timeoutMs : Nat) (st : CallState) :
    Event → CallState
  | .message source data => handler callId st source data
  | .timerFire => timeoutFire method timeoutMs st
  | .abortFire => onAbort method st

/-- Run a sequence of events from a state. -/
def runEvents (callId : Nat) (method : String) (timeoutMs : Nat) (st : CallState)
    (events : List Event) : CallState :=
  events.foldl (step callId method timeoutMs) st

/-- Source line 210. -/
def DEFAULT_EXPERIMENTAL_REQUEST_TIMEOUT_MS : Nat := 30000

/-- `options?.timeoutMs ?? DEFAULT_EXPERIMENTAL_REQUEST_TIMEOUT_MS`
(source line 245). -/
def effectiveTimeoutMs (timeoutMs : Option Nat) : Nat :=
  timeoutMs.getD DEFAULT_EXPERIMENTAL_REQUEST_TIMEOUT_MS

/-- The state of the call right after the promise executor finished (source
lines 247-302), for a call with an optional abort signal (`none`: no
signal; `some b`: a signal whose `aborted` flag is `b`).  If the signal is
already aborted the executor rejects and returns before registering
anything (lines 278-281); otherwise the abort listener is added when a
signal was supplied, the message listener is added, and the timer is set
exactly when `timeoutMs > 0`. -/
def initCallState (method : String) (signal : Option Bool) (timeoutMs : Nat) : CallState :=
  if signal = some true then
    { listenerOn := false, abortOn := false, timerOn := false,
      settled := some (.rejected (.errorMessage (abortMessage method))) }
  else
    { listenerOn := true, abortOn := signal.isSome,
      timerOn := decide (0 < timeoutMs), settled := none }

/-- The request envelope posted at source lines 293-301.  `params = none`
models the `params` key being omitted from the object entirely: the spread
`...(params !== undefined && { params })` adds the key only when `params`
is not `undefined`. -/
structure Envelope where
  jsonrpc : String
  id : Nat
  method : String
  params : Option JsonValue

/-- One observable primitive effect of a `sendExperimentalRequest` invocation,
in the order the source performs them. -/
inductive Action where
  | allocId (id : Nat)
  | rejectNow (msg : String)
  | addAbortListener
  | addMessageListener
  | setTimer (delayMs : Nat)
  | postMessage (envelope : Envelope)

/-- The per-call options (source line 236): `signal` is `none` when no
`AbortSignal` was supplied and `some b` when one was, with aborted flag
`b`; `timeoutMs` is `none` when the option was omitted. -/
structure SendOptions where
  signal : Option Bool
  timeoutMs : Option Nat

/-- The trace of observable effects of one `sendExperimentalRequest(method,
params, options)` invocation (source lines 233-303), starting from the
module counter `counter` (`_experimentalRequestId`, source line 208).
`isTopLevel` is the `window.parent === window` test of line 238: then the
call rejects immediately, before allocating an id or touching anything
else.  Otherwise the id `counter + 1` is allocated (`++_experimentalRequestId`,
line 244); inside the executor an already-aborted signal rejects before any
registration (lines 278-281); else the abort listener (when a signal was
supplied), the message listener, and — exactly when the effective timeout
is positive — a timer with delay the effective timeout are registered, and
only then is the envelope posted. -/
def sendExperimentalRequest (isTopLevel : Bool) (counter : Nat) (method : String)
    (params : Option JsonValue) (options : SendOptions) : List Action :=
  if isTopLevel then [Action.rejectNow NOT_IN_IFRAME_MESSAGE]
  else
    let id := counter + 1
    let timeoutMs := effectiveTimeoutMs options.timeoutMs
    if options.signal = some true then
      [Action.allocId id, Action.rejectNow (abortMessage method)]
    else
      Action.allocId id ::
        ((if options.signal.isSome then [Action.addAbortListener] else []) ++
          [Action.addMessageListener] ++
          (if 0 < timeoutMs then [Action.setTimer timeoutMs] else []) ++
          [Action.postMessage
            { jsonrpc := "2.0", id := id, method := method, params := params }])

/-- The value of the module counter `_experimentalRequestId` after one
invocation: the top-level rejection at source lines 238-242 returns before
`++_experimentalRequestId` runs, so the counter is untouched there. -/
def nextRequestId (isTopLevel : Bool) (counter : Nat) : Nat :=
  if isTopLevel then counter else counter + 1

/-- The ids allocated by `n` successive non-top-level invocations starting
from counter value `counter`: each call allocates `nextRequestId` and
leaves the counter at that value (settlement of a call never touches the
counter). -/
def allocIds : Nat → Nat → List Nat
  | _, 0 => []
  | counter, n + 1 =>
    nextRequestId false counter :: allocIds (nextRequestId false counter) n

/-- The envelope of a `postMessage` action, if any. -/
def postedEnvelope : Action → Option Envelope
  | .postMessage e => some e
  | _ => none

/-- Whether an action schedules the timeout timer. -/
def isSetTimer : Action → Bool
  | .setTimer _ => true
  | _ => false

/-! ## `createUIResource` (source lines 35-111) -/

/-- The standard base64 alphabet. -/
def base64Alphabet : String :=
  "ABCDEFGHIJKLMNOPQRSTUVWXYZabcdefghijklmnopqrstuvwxyz0123456789+/"

/-- The base64 digit for a sextet. -/
def base64Char (n : Nat) : Char :=
  base64Alphabet.toList.getD n '='

/-- Base64 encoding of a byte list, three bytes to four digits, padded
with `=`. -/
def base64Encode : List Nat → List Char
  | [] => []
  | [b0] => [base64Char (b0 / 4), base64Char (b0 % 4 * 16), '=', '=']
  | [b0, b1] =>
    [base64Char (b0 / 4), base64Char (b0 % 4 * 16 + b1 / 16),
      base64Char (b1 % 16 * 4), '=']
  | b0 :: b1 :: b2 :: rest =>
    base64Char (b0 / 4) :: base64Char (b0 % 4 * 16 + b1 / 16) ::
      base64Char (b1 % 16 * 4 + b2 / 64) :: base64Char (b2 % 64) ::
        base64Encode rest

/-- Modelled from the spec: `utf8ToBase64` lives in `utils.ts`, which is not
among the repository files here (the spec scopes the choice of transfer
encoding out as pure data transformation); it is the standard base64
encoding of the UTF-8 bytes of the string, as its name states and the unit
tests pin (`Buffer.from(s).toString('base64')`). -/
def utf8ToBase64 (s : String) : String :=
  String.mk (base64Encode (s.toUTF8.toList.map UInt8.toNat))

/-- `RESOURCE_MIME_TYPE`, re-exported from `types.ts` (not among the
repository files here); its value is pinned by the unit tests. -/
def RESOURCE_MIME_TYPE : String := "text/html;profile=mcp-app"

/-- The two content payload shapes `createUIResource` handles (the `else`
branch of source lines 75-79 is unreachable for these).  The carried value
is a runtime value so that the `typeof !== 'string'` checks of source
lines 44 and 66 are meaningful. -/
inductive ContentPayload where
  | rawHtml (htmlString : JsonValue)
  | externalUrl (iframeUrl : JsonValue)

/-- The content string carried by a payload, as a runtime value. -/
def contentValue : ContentPayload → JsonValue
  | .rawHtml h => h
  | .externalUrl u => u

/-- The `encoding` option (the `default` branch of source lines 100-103 is
unreachable for these). -/
inductive Encoding where
  | text
  | blob
deriving DecidableEq, Repr

/-- Modelled from the spec: `wrapHtmlWithAdapters` and `getAdapterMimeType`
live in `utils.ts`, which is not among the repository files here (the spec
scopes the injection of compatibility shims out of the core).  An adapters
configuration is therefore modelled by what those two calls produce from
it: a wrapping of the HTML string, and an optional MIME type override. -/
structure AdaptersConfig where
  wrap : String → String
  adapterMimeType : Option String

/-- The options of `createUIResource`.  `additionalResourceProps` stands for
the key/value pairs `getAdditionalResourceProps(options)` (from `utils.ts`,
not among the repository files here) spreads into the resource at source
lines 89 and 97: per the unit tests these are metadata entries (`_meta`
and friends), never the `uri`/`mimeType`/`text`/`blob` keys.  Likewise
`embeddedResourceProps` is spread at the top level (source line 109) and
per the `UIResource` type holds only `annotations`/`_meta`. -/
structure CreateUIResourceOptions where
  uri : String
  content : ContentPayload
  encoding : Encoding
  adapters : Option AdaptersConfig
  additionalResourceProps : List (String × JsonValue)
  embeddedResourceProps : List (String × JsonValue)

/-- The resource placed in the returned object: either a text resource or a
blob resource (source lines 83-104), plus the spread additional props. -/
structure ResourceContents where
  uri : String
  mimeType : String
  text : Option String
  blob : Option String
  additionalProps : List (String × JsonValue)

/-- The returned object (source lines 106-110). -/
structure UIResource where
  type : String
  resource : ResourceContents
  embeddedProps : List (String × JsonValue)

/-- Source lines 36-79: validate the options and compute
`actualContentString` and `mimeType`.  For `rawHtml`: the URI must start
with `ui://` (line 40), the content must be a string (line 44), and an
adapters configuration wraps the string and may override the MIME type
(lines 51-58).  For `externalUrl`: the URI must start with `ui://`
(line 60) and the content must be a string (line 66). -/
def resolveContent (options : CreateUIResourceOptions) : Except String (String × String) :=
  match options.content with
  | .rawHtml htmlString =>
    if !options.uri.startsWith "ui://" then
      Except.error "MCP-UI SDK: URI must start with 'ui://' when content.type is 'rawHtml'."
    else
      match htmlString with
      | .str s =>
        match options.adapters with
        | some a => Except.ok (a.wrap s, a.adapterMimeType.getD RESOURCE_MIME_TYPE)
        | none => Except.ok (s, RESOURCE_MIME_TYPE)
      | _ =>
        Except.error
          "MCP-UI SDK: content.htmlString must be provided as a string when content.type is 'rawHtml'."
  | .externalUrl iframeUrl =>
    if !options.uri.startsWith "ui://" then
      Except.error "MCP-UI SDK: URI must start with 'ui://' when content.type is 'externalUrl'."
    else
      match iframeUrl with
      | .str s => Except.ok (s, RESOURCE_MIME_TYPE)
      | _ =>
        Except.error
          "MCP-UI SDK: content.iframeUrl must be provided as a string when content.type is 'externalUrl'."

/-- `createUIResource` (source lines 35-111): validation and content
resolution, then the `text`/`blob` encoding switch (lines 83-104), then
the returned object (lines 106-110).  A thrown `Error` is embedded as
`Except.error` of its message. -/
def createUIResource (options : CreateUIResourceOptions) : Except String UIResource :=
  match resolveContent options with
  | Except.error msg => Except.error msg
  | Except.ok (actualContentString, mimeType) =>
    let resource : ResourceContents :=
      match options.encoding with
      | .text =>
        { uri := options.uri, mimeType := mimeType, text := some actualContentString,
          blob := none, additionalProps := options.additionalResourceProps }
      | .blob =>
        { uri := options.uri, mimeType := mimeType, text := none,
          blob := some (utf8ToBase64 actualContentString),
          additionalProps := options.additionalResourceProps }
    Except.ok
      { type := "resource", resource := resource,
        embeddedProps := options.embeddedResourceProps }

/-! ## Helper lemmas -/

/-- All three registrations of a call are gone: the message listener, the
abort listener and the timeout timer. -/
def cleanedUp (st : CallState) : Prop :=
  st.listenerOn = false ∧ st.abortOn = false ∧ st.timerOn = false

/-- The settlement invariant: a settled call has been cleaned up. -/
def settledInv (st : CallState) : Prop :=
  st.settled.isSome = true → cleanedUp st

lemma cleanedUp_settle_cleanup (st : CallState) (s : Settlement) :
    cleanedUp (settle (cleanup st) s) := by
  unfold settle cleanup cleanedUp
  split <;> simp

lemma step_of_cleanedUp (c : Nat) (m : String) (t : Nat) (st : CallState) (e : Event)
    (h : cleanedUp st) : step c m t st e = st := by
  obtain ⟨h1, h2, h3⟩ := h
  cases e <;> simp [step, handler, timeoutFire, onAbort, h1, h2, h3]

lemma settledInv_step (c : Nat) (m : String) (t : Nat) (st : CallState) (e : Event)
    (h : settledInv st) : settledInv (step c m t st e) := by
  cases e with
  | message src data =>
    obtain ⟨j, i, err, res⟩ := data
    simp only [step, handler]
    split_ifs with h1 h2 h3
    · exact h
    · exact h
    · cases err with
      | none => exact fun _ => cleanedUp_settle_cleanup st _
      | some e2 =>
        by_cases ht : e2.truthy = true <;>
          simp only [ht, if_true, if_false, Bool.false_eq_true] <;>
            exact fun _ => cleanedUp_settle_cleanup st _
    · exact h
  | timerFire =>
    simp only [step, timeoutFire]
    split_ifs with h1
    · exact fun _ => cleanedUp_settle_cleanup st _
    · exact h
  | abortFire =>
    simp only [step, onAbort]
    split_ifs with h1
    · exact fun _ => cleanedUp_settle_cleanup st _
    · exact h

lemma settledInv_runEvents (c : Nat) (m : String) (t : Nat) (events : List Event)
    (st : CallState) (h : settledInv st) : settledInv (runEvents c m t st events) := by
  induction events generalizing st with
  | nil => exact h
  | cons e rest ih => exact ih (step c m t st e) (settledInv_step c m t st e h)

lemma settledInv_init (method : String) (signal : Option Bool) (timeoutMs : Nat) :
    settledInv (initCallState method signal timeoutMs) := by
  by_cases hs : signal = some true
  · simp [initCallState, hs, settledInv, cleanedUp]
  · simp [initCallState, hs, settledInv]

lemma timerOn_step (c : Nat) (m : String) (t : Nat) (st : CallState) (e : Event)
    (h : st.timerOn = false) : (step c m t st e).timerOn = false := by
  cases e with
  | message src data =>
    obtain ⟨j, i, err, res⟩ := data
    simp only [step, handler]
    split_ifs
    · exact h
    · exact h
    · cases err with
      | none => simp [settle, cleanup]; split <;> simp
      | some e2 =>
        by_cases ht : e2.truthy = true <;>
          simp only [ht, if_true, if_false, Bool.false_eq_true] <;>
            unfold settle cleanup <;> split <;> simp
    · exact h
  | timerFire =>
    simp only [step, timeoutFire]
    split_ifs with h1
    · unfold settle cleanup; split <;> simp
    · exact h
  | abortFire =>
    simp only [step, onAbort]
    split_ifs with h1
    · unfold settle cleanup; split <;> simp
    · exact h

lemma timerOn_runEvents (c : Nat) (m : String) (t : Nat) (events : List Event)
    (st : CallState) (h : st.timerOn = false) :
    (runEvents c m t st events).timerOn = false := by
  induction events generalizing st with
  | nil => exact h
  | cons e rest ih => exact ih (step c m t st e) (timerOn_step c m t st e h)

/-! ## The claims -/

/-- C1: for every call issued via `sendExperimentalRequest`, exactly one
settlement occurs.  On every reachable state of a call (any interleaving of
message / timer / abort events from the post-executor state), once the
promise is settled the message listener, the abort listener and the timeout
timer are all unregistered, and every further event — a timer fire, an
abort, or a response arriving after settlement — leaves the state (its
settlement value included) entirely unchanged, so the promise is never
settled twice nor both resolved and rejected. -/
theorem C1_exactly_one_settlement (callId : Nat) (method : String) (signal : Option Bool)
    (timeoutMs : Nat) (events : List Event) (e : Event)
    (hsettled :
      (runEvents callId method timeoutMs (initCallState method signal timeoutMs)
        events).settled.isSome = true) :
    cleanedUp (runEvents callId method timeoutMs (initCallState method signal timeoutMs)
        events) ∧
      step callId method timeoutMs
          (runEvents callId method timeoutMs (initCallState method signal timeoutMs) events) e
        = runEvents callId method timeoutMs (initCallState method signal timeoutMs) events := by
  have hc : cleanedUp (runEvents callId method timeoutMs
      (initCallState method signal timeoutMs) events) :=
    settledInv_runEvents callId method timeoutMs events _
      (settledInv_init method signal timeoutMs) hsettled
  exact ⟨hc, step_of_cleanedUp callId method timeoutMs _ e hc⟩

/-- C1 witness: a call with a 100ms timeout whose timer fires is settled, is
cleaned up, and a second timer fire is a no-op. -/
theorem C1_exactly_one_settlement_witness :
    cleanedUp (runEvents 1 "x/test" 100 (initCallState "x/test" none 100)
        [Event.timerFire]) ∧
      step 1 "x/test" 100
          (runEvents 1 "x/test" 100 (initCallState "x/test" none 100) [Event.timerFire])
          Event.timerFire
        = runEvents 1 "x/test" 100 (initCallState "x/test" none 100) [Event.timerFire] :=
  C1_exactly_one_settlement 1 "x/test" none 100 [Event.timerFire] Event.timerFire rfl

/-- C2: an incoming message settles a pending experimental request only if its
source is the parent window and its id strictly equals the request's id; a
message from any other source, or whose id does not match, leaves the
call's state completely unchanged (it settles nothing), and the handler is
a total function (it never throws). -/
theorem C2_untrusted_or_unmatched_ignored (callId : Nat) (st : CallState) (source : Source)
    (data : MessageData)
    (h : source ≠ Source.parent ∨ idMatches callId data.id = false) :
    handler callId st source data = st := by
  unfold handler
  split_ifs with h1 h2 h3
  · rfl
  · rfl
  · exfalso
    rcases h with h | h
    · exact h2 h
    · rw [h3.2] at h
      exact Bool.true_eq_false.mp h
  · rfl

/-- C2 witness: a forged response with the right id but a non-parent source,
and a parent response with a wrong id, both leave a live pending call
untouched. -/
theorem C2_untrusted_or_unmatched_ignored_witness :
    handler 7 { listenerOn := true, abortOn := false, timerOn := true, settled := none }
        (Source.other "attacker")
        { jsonrpc := some "2.0", id := some (JsonValue.num 7), error := none,
          result := some (JsonValue.str "forged") }
      = { listenerOn := true, abortOn := false, timerOn := true, settled := none } ∧
    handler 7 { listenerOn := true, abortOn := false, timerOn := true, settled := none }
        Source.parent
        { jsonrpc := some "2.0", id := some (JsonValue.num 8), error := none,
          result := some (JsonValue.str "stale") }
      = { listenerOn := true, abortOn := false, timerOn := true, settled := none } :=
  ⟨C2_untrusted_or_unmatched_ignored 7 _ _ _ (Or.inl (by decide)),
    C2_untrusted_or_unmatched_ignored 7 _ _ _ (Or.inr (by rfl))⟩

/-- C3: the timeout discipline of `sendExperimentalRequest`.  An omitted
`timeoutMs` falls back to the default 30000; an explicit `timeoutMs = T`
is used as given; with `T > 0` the invocation schedules the timer with
delay exactly `T`, and when that timer fires on a still-unanswered pending
call the promise is rejected with the timeout error naming the method and
the duration `T`; with `timeoutMs = 0` no timer is ever scheduled and a
timer fire is a no-op on every reachable state, however much time
elapses. -/
theorem C3_timeout_behavior (method : String) (counter : Nat) (params : Option JsonValue)
    (signal : Option Bool) (timeoutMs : Nat) (callId : Nat) (events : List Event)
    (st : CallState) (hSignal : signal ≠ some true) (hTimer : st.timerOn = true)
    (hPending : st.settled = none) :
    effectiveTimeoutMs none = 30000 ∧
    effectiveTimeoutMs (some timeoutMs) = timeoutMs ∧
    (0 < timeoutMs →
      Action.setTimer timeoutMs
        ∈ sendExperimentalRequest false counter method params ⟨signal, some timeoutMs⟩) ∧
    (timeoutFire method timeoutMs st).settled
      = some (.rejected (.errorMessage (timeoutMessage method timeoutMs))) ∧
    (sendExperimentalRequest false counter method params ⟨signal, some 0⟩).filter isSetTimer
      = [] ∧
    timeoutFire method 0 (runEvents callId method 0 (initCallState method signal 0) events)
      = runEvents callId method 0 (initCallState method signal 0) events := by
  have hb : signal = none ∨ signal = some false := by
    rcases signal with _ | b
    · exact Or.inl rfl
    · cases b
      · exact Or.inr rfl
      · exact absurd rfl hSignal
  refine ⟨rfl, rfl, ?_, ?_, ?_, ?_⟩
  · intro ht
    rcases hb with hb | hb <;>
      simp [hb, sendExperimentalRequest, effectiveTimeoutMs, ht]
  · simp [timeoutFire, hTimer, settle, cleanup, hPending]
  · rcases hb with hb | hb <;>
      simp [hb, sendExperimentalRequest, effectiveTimeoutMs, isSetTimer]
  · have ht : (runEvents callId method 0 (initCallState method signal 0) events).timerOn
        = false := by
      apply timerOn_runEvents
      rcases hb with hb | hb <;> simp [initCallState, hb]
    simp [timeoutFire, ht]

/-- C3 witness: a call with `timeoutMs = 100` and no signal, at the initial
pending state. -/
theorem C3_timeout_behavior_witness :
    effectiveTimeoutMs none = 30000 ∧
    effectiveTimeoutMs (some 100) = 100 ∧
    (0 < 100 →
      Action.setTimer 100
        ∈ sendExperimentalRequest false 0 "x/test" none ⟨none, some 100⟩) ∧
    (timeoutFire "x/test" 100 (initCallState "x/test" none 100)).settled
      = some (.rejected (.errorMessage (timeoutMessage "x/test" 100))) ∧
    (sendExperimentalRequest false 0 "x/test" none ⟨none, some 0⟩).filter isSetTimer = [] ∧
    timeoutFire "x/test" 0 (runEvents 1 "x/test" 0 (initCallState "x/test" none 0) [])
      = runEvents 1 "x/test" 0 (initCallState "x/test" none 0) [] :=
  C3_timeout_behavior "x/test" 0 none none 100 1 [] (initCallState "x/test" none 100)
    (by decide) rfl rfl

/-- C4: aborting a call.  A signal already aborted at call time leaves the
executor with the promise rejected with the abort error naming the method
(and nothing registered); a signal firing while the call is pending rejects
the promise with that same abort error, and a response arriving afterwards
— even a trusted one with the matching id — is ignored, leaving the state
unchanged. -/
theorem C4_abort_rejects_and_ignores_response (method : String) (timeoutMs : Nat)
    (callId : Nat) (st : CallState) (source : Source) (data : MessageData)
    (hAbortOn : st.abortOn = true) (hPending : st.settled = none) :
    (initCallState method (some true) timeoutMs).settled
      = some (.rejected (.errorMessage (abortMessage method))) ∧
    (onAbort method st).settled = some (.rejected (.errorMessage (abortMessage method))) ∧
    handler callId (onAbort method st) source data = onAbort method st := by
  refine ⟨by simp [initCallState], ?_, ?_⟩
  · simp [onAbort, hAbortOn, settle, cleanup, hPending]
  · have hl : (onAbort method st).listenerOn = false := by
      simp [onAbort, hAbortOn, settle, cleanup, hPending]
    simp [handler, hl]

/-- C4 witness: a pending call with a live (not yet aborted) signal, aborted,
then receiving the matching response — which is ignored. -/
theorem C4_abort_rejects_and_ignores_response_witness :
    (initCallState "x/test" (some true) 100).settled
      = some (.rejected (.errorMessage (abortMessage "x/test"))) ∧
    (onAbort "x/test" (initCallState "x/test" (some false) 100)).settled
      = some (.rejected (.errorMessage (abortMessage "x/test"))) ∧
    handler 1 (onAbort "x/test" (initCallState "x/test" (some false) 100)) Source.parent
        { jsonrpc := some "2.0", id := some (JsonValue.num 1), error := none,
          result := some (JsonValue.str "late") }
      = onAbort "x/test" (initCallState "x/test" (some false) 100) :=
  C4_abort_rejects_and_ignores_response "x/test" 100 1
    (initCallState "x/test" (some false) 100) Source.parent
    { jsonrpc := some "2.0", id := some (JsonValue.num 1), error := none,
      result := some (JsonValue.str "late") }
    rfl rfl

/-- C5 counterexample: the claim says the promise rejects with the envelope's
error value whenever the `error` field is present; but the source tests
`if (data.error)` — JavaScript truthiness, not key presence.  A trusted,
correctly-correlated envelope carrying `error: null` (present but falsy)
together with `result: 42` makes the call resolve with `42` instead of
rejecting with the error value. -/
theorem C5_error_presence_counterexample :
    (handler 1 (initCallState "x/test" none 100) Source.parent
        { jsonrpc := some "2.0", id := some (JsonValue.num 1),
          error := some JsonValue.null, result := some (JsonValue.num 42) }).settled
      = some (Settlement.resolved (some (JsonValue.num 42))) ∧
    (handler 1 (initCallState "x/test" none 100) Source.parent
        { jsonrpc := some "2.0", id := some (JsonValue.num 1),
          error := some JsonValue.null, result := some (JsonValue.num 42) }).settled
      ≠ some (Settlement.rejected (RejectReason.jsonRpcError JsonValue.null)) := by
  constructor
  · rfl
  · intro h
    rw [show (handler 1 (initCallState "x/test" none 100) Source.parent
        { jsonrpc := some "2.0", id := some (JsonValue.num 1),
          error := some JsonValue.null, result := some (JsonValue.num 42) }).settled
      = some (Settlement.resolved (some (JsonValue.num 42))) from rfl] at h
    exact Settlement.noConfusion (Option.some.inj h)

/-- C5 (amended): when a trusted (parent-window) message with jsonrpc `2.0`
and the pending request's id arrives, the request's promise settles
according to the envelope — it rejects with the envelope's error value when
the `error` field is present with a truthy value, and otherwise (the field
absent or carrying a falsy value such as `null`) resolves with the
envelope's `result` value. -/
theorem C5_settlement_follows_envelope (callId : Nat) (st : CallState) (data : MessageData)
    (hListener : st.listenerOn = true) (hPending : st.settled = none)
    (hJsonrpc : data.jsonrpc = some "2.0") (hId : idMatches callId data.id = true) :
    (∀ e, data.error = some e → e.truthy = true →
      (handler callId st Source.parent data).settled
        = some (.rejected (.jsonRpcError e))) ∧
    (dataErrTruthy data = false →
      (handler callId st Source.parent data).settled
        = some (.resolved data.result)) := by
  constructor
  · intro e he ht
    simp [handler, hListener, hJsonrpc, hId, he, ht, settle, cleanup, hPending]
  · intro hfalse
    cases herr : data.error with
    | none => simp [handler, hListener, hJsonrpc, hId, herr, settle, cleanup, hPending]
    | some e2 =>
      have ht : e2.truthy = false := by
        simpa [dataErrTruthy, herr] using hfalse
      simp [handler, hListener, hJsonrpc, hId, herr, ht, settle, cleanup, hPending]

/-- The end-to-end scenario B response envelope: a `MethodNotFound` JSON-RPC
error for request id 1. -/
def methodNotFoundData : MessageData :=
  { jsonrpc := some "2.0", id := some (JsonValue.num 1),
    error := some (JsonValue.obj [("code", JsonValue.num (-32601)),
      ("message", JsonValue.str "Method not found")]),
    result := none }

/-- C5 witness: a pending call receiving the structured `MethodNotFound`
JSON-RPC error envelope rejects with exactly that error value. -/
theorem C5_settlement_follows_envelope_witness :
    (∀ e, methodNotFoundData.error = some e → e.truthy = true →
      (handler 1 (initCallState "x/test" none 100) Source.parent
          methodNotFoundData).settled
        = some (.rejected (.jsonRpcError e))) ∧
    (dataErrTruthy methodNotFoundData = false →
      (handler 1 (initCallState "x/test" none 100) Source.parent
          methodNotFoundData).settled
        = some (.resolved methodNotFoundData.result)) :=
  C5_settlement_follows_envelope 1 (initCallState "x/test" none 100) methodNotFoundData
    rfl rfl rfl rfl

/-- C6: one invocation of `sendExperimentalRequest(m, p)` (in a hosted
context, with no already-aborted signal) posts exactly one envelope, whose
`jsonrpc` is `2.0`, whose id is the freshly allocated `counter + 1`, whose
method is `m` and whose params is `p`; `p = none` means the `params` key is
omitted from the posted object entirely (the spread
`...(params !== undefined && { params })` adds no key), not present with a
null value. -/
theorem C6_posts_exactly_one_envelope (counter : Nat) (method : String)
    (params : Option JsonValue) (signal : Option Bool) (timeoutMs : Option Nat)
    (hSignal : signal ≠ some true) :
    (sendExperimentalRequest false counter method params ⟨signal, timeoutMs⟩).filterMap
        postedEnvelope
      = [{ jsonrpc := "2.0", id := counter + 1, method := method, params := params }] := by
  have hb : signal = none ∨ signal = some false := by
    rcases signal with _ | b
    · exact Or.inl rfl
    · cases b
      · exact Or.inr rfl
      · exact absurd rfl hSignal
  by_cases ht : 0 < effectiveTimeoutMs timeoutMs <;>
    rcases hb with hb | hb <;>
      simp [hb, sendExperimentalRequest, postedEnvelope, ht]

/-- C6 witness: the end-to-end scenario A request, with params present, and a
request with params omitted. -/
theorem C6_posts_exactly_one_envelope_witness :
    (sendExperimentalRequest false 0 "x/clipboard/write"
        (some (JsonValue.obj [("text", JsonValue.str "hello")])) ⟨none, none⟩).filterMap
        postedEnvelope
      = [{ jsonrpc := "2.0", id := 1, method := "x/clipboard/write",
           params := some (JsonValue.obj [("text", JsonValue.str "hello")]) }] ∧
    (sendExperimentalRequest false 41 "x/ping" none ⟨none, none⟩).filterMap postedEnvelope
      = [{ jsonrpc := "2.0", id := 42, method := "x/ping", params := none }] :=
  ⟨C6_posts_exactly_one_envelope 0 "x/clipboard/write"
      (some (JsonValue.obj [("text", JsonValue.str "hello")])) none none (by decide),
    C6_posts_exactly_one_envelope 41 "x/ping" none none none (by decide)⟩

/-- C7: `sendExperimentalRequest` invoked with no attached counterpart
(`window.parent === window`, i.e. not inside a hosted iframe) produces only
an immediate rejection with the not-in-iframe message — it posts no
envelope to any window (and allocates nothing). -/
theorem C7_top_level_rejects_without_sending (counter : Nat) (method : String)
    (params : Option JsonValue) (options : SendOptions) :
    sendExperimentalRequest true counter method params options
      = [Action.rejectNow NOT_IN_IFRAME_MESSAGE] ∧
    (sendExperimentalRequest true counter method params options).filterMap postedEnvelope
      = [] := by
  constructor <;> simp [sendExperimentalRequest, postedEnvelope]

/-- C8: within one invocation (hosted context, signal not already aborted),
the trace ends with the single `postMessage`, and everything else — the id
allocation, the message listener registration, the abort listener
registration (when a signal was supplied) and the timer registration (when
the effective timeout is positive) — happens strictly before it: the
prefix preceding the send contains them all and contains no send. -/
theorem C8_registration_precedes_send (counter : Nat) (method : String)
    (params : Option JsonValue) (signal : Option Bool) (timeoutMs : Option Nat)
    (hSignal : signal ≠ some true) :
    ∃ pre,
      sendExperimentalRequest false counter method params ⟨signal, timeoutMs⟩
          = pre ++ [Action.postMessage
              { jsonrpc := "2.0", id := counter + 1, method := method, params := params }] ∧
        Action.allocId (counter + 1) ∈ pre ∧
        Action.addMessageListener ∈ pre ∧
        (signal.isSome = true → Action.addAbortListener ∈ pre) ∧
        (0 < effectiveTimeoutMs timeoutMs →
          Action.setTimer (effectiveTimeoutMs timeoutMs) ∈ pre) ∧
        ∀ e, Action.postMessage e ∉ pre := by
  have hb : signal = none ∨ signal = some false := by
    rcases signal with _ | b
    · exact Or.inl rfl
    · cases b
      · exact Or.inr rfl
      · exact absurd rfl hSignal
  by_cases ht : 0 < effectiveTimeoutMs timeoutMs <;> rcases hb with hb | hb
  · exact ⟨[Action.allocId (counter + 1), Action.addMessageListener,
      Action.setTimer (effectiveTimeoutMs timeoutMs)],
      by simp [hb, sendExperimentalRequest, ht], by simp, by simp, by simp [hb],
      fun _ => by simp, fun e => by simp⟩
  · exact ⟨[Action.allocId (counter + 1), Action.addAbortListener, Action.addMessageListener,
      Action.setTimer (effectiveTimeoutMs timeoutMs)],
      by simp [hb, sendExperimentalRequest, ht], by simp, by simp, fun _ => by simp,
      fun _ => by simp, fun e => by simp⟩
  · exact ⟨[Action.allocId (counter + 1), Action.addMessageListener],
      by simp [hb, sendExperimentalRequest, ht], by simp, by simp, by simp [hb],
      fun h => absurd h ht, fun e => by simp⟩
  · exact ⟨[Action.allocId (counter + 1), Action.addAbortListener, Action.addMessageListener],
      by simp [hb, sendExperimentalRequest, ht], by simp, by simp, fun _ => by simp,
      fun h => absurd h ht, fun e => by simp⟩

/-- C8 witness: a call with a live signal and the default timeout. -/
theorem C8_registration_precedes_send_witness :
    ∃ pre,
      sendExperimentalRequest false 0 "x/test" none ⟨some false, none⟩
          = pre ++ [Action.postMessage
              { jsonrpc := "2.0", id := 1, method := "x/test", params := none }] ∧
        Action.allocId 1 ∈ pre ∧
        Action.addMessageListener ∈ pre ∧
        ((some false : Option Bool).isSome = true → Action.addAbortListener ∈ pre) ∧
        (0 < effectiveTimeoutMs none → Action.setTimer (effectiveTimeoutMs none) ∈ pre) ∧
        ∀ e, Action.postMessage e ∉ pre :=
  C8_registration_precedes_send 0 "x/test" none (some false) none (by decide)

lemma allocIds_gt (n : Nat) : ∀ c, ∀ i ∈ allocIds c n, c < i := by
  induction n with
  | zero => intro c i hi; simp [allocIds] at hi
  | succ n ih =>
    intro c i hi
    simp only [allocIds, nextRequestId, if_false, Bool.false_eq_true, reduceIte] at hi
    rcases List.mem_cons.mp hi with rfl | hi
    · exact Nat.lt_succ_self c
    · exact Nat.lt_of_succ_lt (ih (c + 1) i hi)

lemma allocIds_pairwise (n : Nat) : ∀ c, (allocIds c n).Pairwise (fun a b => a < b) := by
  induction n with
  | zero => intro c; simp [allocIds]
  | succ n ih =>
    intro c
    simp only [allocIds]
    exact List.Pairwise.cons (fun b hb => allocIds_gt n (nextRequestId false c) b hb) (ih _)

/-- C9: request ids are unique across the calls of one session.  Over any
number `n` of successive (non-top-level) invocations from counter value
`counter`, the allocated ids are strictly increasing in call order (each id
strictly greater than every previously allocated one), all strictly above
the starting counter, pairwise distinct — so an id is never reused, no
matter what has settled in between (settlement never touches the counter)
— and from the initial counter 0 the first allocated id is 1. -/
theorem C9_ids_unique_and_monotone (counter n : Nat) (hn : 0 < n) :
    (allocIds counter n).Pairwise (fun a b => a < b) ∧
    (∀ i ∈ allocIds counter n, counter < i) ∧
    (allocIds counter n).Nodup ∧
    (allocIds 0 n).head? = some 1 := by
  refine ⟨allocIds_pairwise n counter, allocIds_gt n counter, ?_, ?_⟩
  · exact (allocIds_pairwise n counter).imp Nat.ne_of_lt
  · cases n with
    | zero => exact absurd hn (by simp)
    | succ m => simp [allocIds, nextRequestId]

/-- C9 witness: three successive calls from a fresh session allocate the ids
1, 2, 3. -/
theorem C9_ids_unique_and_monotone_witness :
    (allocIds 0 3).Pairwise (fun a b => a < b) ∧
    (∀ i ∈ allocIds 0 3, 0 < i) ∧
    (allocIds 0 3).Nodup ∧
    (allocIds 0 3).head? = some 1 :=
  C9_ids_unique_and_monotone 0 3 (by decide)

/-- C10: `createUIResource` rejects any options (for either content type,
`rawHtml` or `externalUrl`) whose `uri` does not start with `ui://`, and
any whose content value (`htmlString` / `iframeUrl` respectively) is not a
string; when both validations pass it returns (never throws) an object
whose `type` is `resource` and whose `resource.uri` equals `options.uri`. -/
theorem C10_createUIResource_validation (options : CreateUIResourceOptions) :
    (options.uri.startsWith "ui://" = false →
      (createUIResource options).isOk = false) ∧
    ((contentValue options.content).isString = false →
      (createUIResource options).isOk = false) ∧
    (options.uri.startsWith "ui://" = true →
      (contentValue options.content).isString = true →
      (createUIResource options).map (fun r => (r.type, r.resource.uri))
        = Except.ok ("resource", options.uri)) := by
  obtain ⟨uri, content, encoding, adapters, addProps, embProps⟩ := options
  refine ⟨?_, ?_, ?_⟩
  · intro hu
    cases content <;> simp [createUIResource, resolveContent, hu, Except.isOk, Except.toBool]
  · intro hns
    by_cases hu : uri.startsWith "ui://"
    · cases content with
      | rawHtml h =>
        cases h <;>
          simp_all [contentValue, JsonValue.isString, createUIResource, resolveContent,
            Except.isOk, Except.toBool]
      | externalUrl u =>
        cases u <;>
          simp_all [contentValue, JsonValue.isString, createUIResource, resolveContent,
            Except.isOk, Except.toBool]
    · cases content <;>
        simp [createUIResource, resolveContent, hu, Except.isOk, Except.toBool]
  · intro hu hs
    cases content with
    | rawHtml h =>
      cases h <;> simp [contentValue, JsonValue.isString] at hs
      case str s =>
        cases adapters <;> cases encoding <;>
          simp [createUIResource, resolveContent, hu, Except.map]
    | externalUrl u =>
      cases u <;> simp [contentValue, JsonValue.isString] at hs
      case str s =>
        cases encoding <;> simp [createUIResource, resolveContent, hu, Except.map]

/-- C10 witness: a well-formed `rawHtml` resource is created with the given
`ui://` uri; a non-`ui://` uri is rejected. -/
theorem C10_createUIResource_validation_witness :
    (("https://evil".startsWith "ui://") = false →
      (createUIResource
        { uri := "https://evil", content := ContentPayload.rawHtml (JsonValue.str "<p>hi</p>"),
          encoding := Encoding.text, adapters := none, additionalResourceProps := [],
          embeddedResourceProps := [] }).isOk = false) ∧
    ((contentValue (ContentPayload.rawHtml (JsonValue.str "<p>hi</p>"))).isString = false →
      (createUIResource
        { uri := "https://evil", content := ContentPayload.rawHtml (JsonValue.str "<p>hi</p>"),
          encoding := Encoding.text, adapters := none, additionalResourceProps := [],
          embeddedResourceProps := [] }).isOk = false) ∧
    (("https://evil".startsWith "ui://") = true →
      (contentValue (ContentPayload.rawHtml (JsonValue.str "<p>hi</p>"))).isString = true →
      (createUIResource
        { uri := "https://evil", content := ContentPayload.rawHtml (JsonValue.str "<p>hi</p>"),
          encoding := Encoding.text, adapters := none, additionalResourceProps := [],
          embeddedResourceProps := [] }).map (fun r => (r.type, r.resource.uri))
        = Except.ok ("resource", "https://evil")) :=
  C10_createUIResource_validation
    { uri := "https://evil", content := ContentPayload.rawHtml (JsonValue.str "<p>hi</p>"),
      encoding := Encoding.text, adapters := none, additionalResourceProps := [],
      embeddedResourceProps := [] }

end McpUi
